import Mathlib

/-!
Verification development for the budget forecast / reallocation engine of
the IPMS repository (file `budget/predict.py`).

Modelling conventions:
* Python floats are modelled as exact rationals (`ℚ`); `round(x, 2)` is
  modelled as exact decimal rounding half-to-even (Python rounding mode).
* Dates are modelled as integers (days on a time line); only their order
  and equality matter to the verified logic.
* The Prophet library call (`model.fit` / `model.predict`) is external,
  third-party code; its outcome is taken as an input (`ProphetOutcome`):
  either a failure (any exception inside the `try` block) or the list of
  forecast rows with `ds` strictly beyond the last historical date, which
  is exactly the slice `forecast[forecast.ds > max(ds)]` the code uses.
* pandas aggregations over that slice (`sum`, `mean`, `std`) are computed
  here exactly; `Series.std` (sample standard deviation, `ddof = 1`) is
  `NaN` when the series has at most one row, and every comparison with
  `NaN` is false, which the embedding reflects with an explicit guard.
* Presentational text (alert messages, suggestion justification strings,
  which interpolate numbers into prose) is omitted from the embedded
  records; every numeric and control-flow aspect is kept.
-/

namespace IPMS

/-- Round a rational to the nearest integer, ties to even (Python `round`). -/
def roundHalfEven (q : ℚ) : ℤ :=
  if q - ⌊q⌋ < 1/2 then ⌊q⌋
  else if 1/2 < q - ⌊q⌋ then ⌊q⌋ + 1
  else if ⌊q⌋ % 2 = 0 then ⌊q⌋ else ⌊q⌋ + 1

/-- Python `round(x, 2)`: round to two decimal places, ties to even. -/
def round2 (q : ℚ) : ℚ := (roundHalfEven (q * 100) : ℚ) / 100

/-- pandas `Series.mean` over an exact list of rationals (empty list gives
`0` here; the code never branches on the mean of an empty series). -/
def mean (l : List ℚ) : ℚ := l.sum / l.length

/-- pandas `Series.var` with `ddof = 1` (sample variance), for series with
at least two rows; the value for shorter series is irrelevant because the
embedding guards the `NaN` case explicitly where `std` is used. -/
def sampleVariance (l : List ℚ) : ℚ :=
  ((l.map (fun x => (x - mean l)^2)).sum) / (l.length - 1)

/-- One expense row (`Expense` model): category, amount, date, project. -/
structure Expense where
  category : String
  amount : ℚ
  date : ℤ
  project_id : String
deriving DecidableEq

/-- One planned-budget row (`BudgetItem` model). -/
structure BudgetItem where
  category : String
  planned_amount : ℚ
  project_id : String
  priority : ℚ
  flexible : ℚ
deriving DecidableEq

/-- One row of the Prophet forecast restricted to future dates. -/
structure ForecastRow where
  yhat : ℚ
  yhat_lower : ℚ
  yhat_upper : ℚ
deriving DecidableEq

/-- Outcome of the external Prophet fit/predict call: `failure` stands for
any exception raised inside the `try` block, `success rows` for the rows
of the forecast whose `ds` lies strictly after the last historical date. -/
inductive ProphetOutcome where
  | failure (msg : String)
  | success (future : List ForecastRow)
deriving DecidableEq

/-- The dictionary returned by `predict_category_spending`; keys that a
given branch does not emit are `none`. -/
structure PredictionResult where
  predicted_total : Option ℚ
  daily_average : Option ℚ
  trend : String
  trend_percentage : Option ℚ
  confidence : String
  upper_bound : Option ℚ
  lower_bound : Option ℚ
  error : Option String
deriving DecidableEq

/-- The comparison `std < c` for `std = √v` with `v ≥ 0`, decided on
rationals: `√v < c` holds exactly when `c` is positive and `v < c ^ 2`.
The code compares the float standard deviation directly; this encoding is
proved equivalent in `sqrtLt_iff_sqrt_lt` below. -/
def sqrtLt (v c : ℚ) : Prop := 0 < c ∧ v < c ^ 2

instance (v c : ℚ) : Decidable (sqrtLt v c) := by
  unfold sqrtLt; infer_instance

/-- Confidence classification of `predict_category_spending`:
`prediction_variance = future_predictions.yhat.std()` compared against
`future_avg * 0.3` and `future_avg * 0.6`.  With at most one future row
the sample standard deviation is `NaN`, both comparisons are false, and
the result is `"low"`. -/
def confidenceOf (future : List ForecastRow) : String :=
  let yh := future.map (·.yhat)
  if future.length ≤ 1 then "low"
  else if sqrtLt (sampleVariance yh) (mean yh * (3/10)) then "high"
  else if sqrtLt (sampleVariance yh) (mean yh * (6/10)) then "medium"
  else "low"

/-- Trend classification of `predict_category_spending`. -/
def trendOf (trend_pct : ℚ) : String :=
  if 20 < trend_pct then "accelerating"
  else if 5 < trend_pct then "increasing"
  else if trend_pct < -5 then "decreasing"
  else "stable"

/-- `predict_category_spending(session, project_id, category, days_ahead)`.
The argument `expenses` is the result of the query for the category,
ordered by date; `prophet` is the outcome of the external model call. -/
def predict_category_spending (expenses : List Expense) (prophet : ProphetOutcome) :
    PredictionResult :=
  if expenses.length < 3 then
    { predicted_total := none, daily_average := none, trend := "insufficient_data",
      trend_percentage := none, confidence := "low", upper_bound := none,
      lower_bound := none, error := some "Need at least 3 expenses for prediction" }
  else
    match prophet with
    | .failure msg =>
        { predicted_total := none, daily_average := none, trend := "error",
          trend_percentage := none, confidence := "low", upper_bound := none,
          lower_bound := none, error := some msg }
    | .success future =>
        let yh := future.map (·.yhat)
        let predicted_future_spend := yh.sum
        let future_avg := mean yh
        let amounts := expenses.map (·.amount)
        let recent_actual := mean (amounts.drop (amounts.length - 5))
        let trend_pct :=
          if 0 < recent_actual then (future_avg - recent_actual) / recent_actual * 100 else 0
        { predicted_total := some (round2 predicted_future_spend),
          daily_average := some (round2 future_avg),
          trend := trendOf trend_pct,
          trend_percentage := some (round2 trend_pct),
          confidence := confidenceOf future,
          upper_bound := some (round2 (future.map (·.yhat_upper)).sum),
          lower_bound := some (round2 (future.map (·.yhat_lower)).sum),
          error := none }

/-- Insert `x` into a sorted list, after every element `y` with `le y x`;
this is the insertion step of a stable sort. -/
def insertLe {α : Type} (le : α → α → Bool) (x : α) : List α → List α
  | [] => [x]
  | y :: ys => if le y x then y :: insertLe le x ys else x :: y :: ys

/-- Stable sort with respect to the total preorder decided by `le`.
Python `list.sort` (Timsort) is stable, and a stable sort of a list under
a total preorder is unique, so this models `list.sort(key=...)` exactly:
`le a b` must decide `key(a) ≤ key(b)` (for `reverse=True`,
`key(a) ≥ key(b)`, which is what a stable descending sort preserves). -/
def stableSortBy {α : Type} (le : α → α → Bool) (l : List α) : List α :=
  l.foldl (fun acc x => insertLe le x acc) []

/-- Shared mutable store: the two tables the endpoints read and write. -/
structure State where
  budget_items : List BudgetItem
  expenses : List Expense
deriving DecidableEq

/-- `session.query(func.sum(Expense.amount)).filter_by(project_id, category)
.scalar() or 0`: the SQL sum of the matching expense amounts, `0` when
there is no matching row. -/
def totalSpent (st : State) (pid cat : String) : ℚ :=
  ((st.expenses.filter (fun e => e.project_id == pid && e.category == cat)).map
    (·.amount)).sum

/-- `session.query(Expense).filter_by(project_id, category)
.order_by(Expense.date)`: the matching expenses, stably sorted by date. -/
def expensesSorted (st : State) (pid cat : String) : List Expense :=
  stableSortBy (fun a b => a.date ≤ b.date)
    (st.expenses.filter (fun e => e.project_id == pid && e.category == cat))

/-- One entry of `categories_analysis` (trend and confidence strings feed
only the justification prose and are omitted). -/
structure CategoryAnalysis where
  category : String
  planned : ℚ
  spent : ℚ
  predicted_total : ℚ
  overspend_amount : ℚ
  overspend_pct : ℚ
  priority : ℚ
  flexible : ℚ
deriving DecidableEq

/-- One reallocation suggestion (the `reason` and `cost_cutting_tip`
prose strings are omitted; `amount` is the rounded amount emitted). -/
structure Suggestion where
  from_category : String
  to_category : String
  amount : ℚ
deriving DecidableEq

/-- The analysis entry `calculate_reallocation_suggestions` builds for one
budget item, `none` when the prediction has no `predicted_total`. -/
def analyzeItem (st : State) (pid : String) (prophets : String → ProphetOutcome)
    (item : BudgetItem) : Option CategoryAnalysis :=
  let total_spent := totalSpent st pid item.category
  let prediction := predict_category_spending (expensesSorted st pid item.category)
    (prophets item.category)
  match prediction.predicted_total with
  | none => none
  | some p =>
      let predicted_total_end := total_spent + p
      let overspend_amount := predicted_total_end - item.planned_amount
      let overspend_pct :=
        if 0 < item.planned_amount then overspend_amount / item.planned_amount * 100 else 0
      some { category := item.category, planned := item.planned_amount,
             spent := total_spent, predicted_total := predicted_total_end,
             overspend_amount := overspend_amount, overspend_pct := overspend_pct,
             priority := item.priority, flexible := item.flexible }

/-- The full `categories_analysis` list for a project. -/
def analysisOf (st : State) (pid : String) (prophets : String → ProphetOutcome) :
    List CategoryAnalysis :=
  (st.budget_items.filter (·.project_id == pid)).filterMap (analyzeItem st pid prophets)

/-- `deficit_categories`, sorted by `overspend_pct` descending
(`sort(key=..., reverse=True)`, stable). -/
def deficitsOf (st : State) (pid : String) (prophets : String → ProphetOutcome) :
    List CategoryAnalysis :=
  stableSortBy (fun a b => decide (b.overspend_pct ≤ a.overspend_pct))
    ((analysisOf st pid prophets).filter (fun c => decide (0 < c.overspend_amount)))

/-- `surplus_categories`, sorted by the key `(priority, -flexible)`
ascending (lower priority first, higher flexibility first on ties). -/
def surplusesOf (st : State) (pid : String) (prophets : String → ProphetOutcome) :
    List CategoryAnalysis :=
  stableSortBy (fun a b =>
      decide (a.priority < b.priority) ||
        (decide (a.priority = b.priority) && decide (b.flexible ≤ a.flexible)))
    ((analysisOf st pid prophets).filter (fun c => decide (c.overspend_amount < 0)))

/-- The inner loop of `calculate_reallocation_suggestions` for one deficit
category: walk the surplus list, skipping sources whose transferable
amount is below 5% of the remaining need, otherwise transferring
`min(available, needed * 0.5)`, until the need is exhausted. -/
def drawFrom (needed : ℚ) (surpluses : List CategoryAnalysis)
    (deficit_category : String) : List Suggestion :=
  match surpluses with
  | [] => []
  | s :: rest =>
      let available := |s.overspend_amount| * s.flexible
      if available < needed * (5/100) then drawFrom needed rest deficit_category
      else
        let transfer_amount := min available (needed * (1/2))
        let sug : Suggestion :=
          { from_category := s.category, to_category := deficit_category,
            amount := round2 transfer_amount }
        if needed - transfer_amount ≤ 0 then [sug]
        else sug :: drawFrom (needed - transfer_amount) rest deficit_category

/-- `calculate_reallocation_suggestions(session, project_id)`, with the
per-category Prophet outcomes supplied as `prophets`. -/
def calculate_reallocation_suggestions (st : State) (pid : String)
    (prophets : String → ProphetOutcome) : List Suggestion :=
  if (st.budget_items.filter (·.project_id == pid)).length < 2 then []
  else
    (deficitsOf st pid prophets).flatMap
      (fun d => drawFrom d.overspend_amount (surplusesOf st pid prophets) d.category)

/-- Modelled from the spec (section 4.3): the reallocation loop as the
spec words it, on an arbitrary `categories` list, with unrounded transfer
amounts.  Used only to compare the code against the spec sentence. -/
def spec_draw (needed : ℚ) (surpluses : List CategoryAnalysis)
    (deficit_category : String) : List Suggestion :=
  match surpluses with
  | [] => []
  | s :: rest =>
      let transferable := |s.overspend_amount| * s.flexible
      if transferable < needed * (5/100) then spec_draw needed rest deficit_category
      else
        let transfer := min transferable (needed * (1/2))
        if needed - transfer ≤ 0 then
          [{ from_category := s.category, to_category := deficit_category,
             amount := transfer }]
        else
          { from_category := s.category, to_category := deficit_category,
            amount := transfer } :: spec_draw (needed - transfer) rest deficit_category

/-- Modelled from the spec (section 4.3): partition into deficit and
surplus, sort deficits by overspend percentage descending and surpluses
by (priority ascending, flexibility descending), then draw for each
deficit in order. -/
def suggest_reallocations_spec (categories : List CategoryAnalysis) : List Suggestion :=
  let deficits := stableSortBy (fun a b => decide (b.overspend_pct ≤ a.overspend_pct))
    (categories.filter (fun c => decide (0 < c.overspend_amount)))
  let surpluses := stableSortBy (fun a b =>
      decide (a.priority < b.priority) ||
        (decide (a.priority = b.priority) && decide (b.flexible ≤ a.flexible)))
    (categories.filter (fun c => decide (c.overspend_amount < 0)))
  deficits.flatMap (fun d => spec_draw d.overspend_amount surpluses d.category)

/-- One alert record; the `message` prose string is omitted, the
discriminating fields (`type`, `severity`) and the numeric payload are
kept. -/
structure Alert where
  kind : String
  severity : String
  planned : Option ℚ
  spent : Option ℚ
  confidence : Option String
deriving DecidableEq

/-- `session.query(BudgetItem).filter_by(project_id, category).first()`. -/
def firstBudgetItem (st : State) (pid cat : String) : Option BudgetItem :=
  (st.budget_items.filter (fun b => b.project_id == pid && b.category == cat)).head?

/-- `check_budget_alerts(session, project_id, category, current_amount)`.
`current_amount` is accepted and unused, as in the code; `prophet` is the
outcome of the Prophet call made by the nested prediction. -/
def check_budget_alerts (st : State) (pid cat : String) (current_amount : ℚ)
    (prophet : ProphetOutcome) : List Alert :=
  match firstBudgetItem st pid cat with
  | none => []
  | some planned =>
      let total_spent := totalSpent st pid cat
      let utilization :=
        if 0 < planned.planned_amount then total_spent / planned.planned_amount * 100 else 0
      let base : List Alert :=
        if planned.planned_amount < total_spent then
          [{ kind := "overspend", severity := "critical",
             planned := some planned.planned_amount, spent := some total_spent,
             confidence := none }]
        else if 85 < utilization then
          [{ kind := "high_utilization", severity := "warning",
             planned := some planned.planned_amount, spent := some total_spent,
             confidence := none }]
        else []
      let prediction := predict_category_spending (expensesSorted st pid cat) prophet
      let predictive : List Alert :=
        match prediction.predicted_total with
        | none => []
        | some p =>
            if planned.planned_amount < total_spent + p then
              let overshoot := total_spent + p - planned.planned_amount
              let overshoot_pct := overshoot / planned.planned_amount * 100
              [{ kind := "predictive_overspend",
                 severity := if overshoot_pct < 20 then "warning" else "critical",
                 planned := none, spent := none,
                 confidence := some prediction.confidence }]
            else []
      base ++ predictive

/-- One parsed CSV data row, as pandas exposes it to the loop body:
`planned_amount` is `none` when the cell is not numeric (so that
`float(...)` raises `ValueError`); `priority` and `flexible` are `none`
when the optional column is absent (`row.get` then yields the default). -/
structure CsvRecord where
  category : String
  planned_amount : Option ℚ
  priority : Option ℚ
  flexible : Option ℚ
deriving DecidableEq

/-- A parsed CSV file: the header columns and the data rows. -/
structure CsvFile where
  columns : List String
  rows : List CsvRecord
deriving DecidableEq

/-- A Python exception relevant to the endpoints: an `HTTPException`
carrying a status code, or any other exception (`ValueError` from
`float` or `strptime`, parse errors from `read_csv`, ...). -/
inductive PyErr where
  | http (status : Nat) (detail : String)
  | exc (msg : String)
deriving DecidableEq

/-- The row loop of `upload_budget_csv`: build a `BudgetItem` per row,
raising `ValueError` (`.exc`) on a non-numeric `Planned_Amount`. -/
def itemsOfRows (pid : String) : List CsvRecord → Except PyErr (List BudgetItem)
  | [] => .ok []
  | r :: rs =>
      match r.planned_amount with
      | none => .error (.exc "could not convert string to float")
      | some amt =>
          match itemsOfRows pid rs with
          | .error e => .error e
          | .ok items =>
              .ok ({ category := r.category.trim, planned_amount := amt,
                     project_id := pid, priority := r.priority.getD 1,
                     flexible := r.flexible.getD (15/100) } :: items)

/-- The `try` block of `upload_budget_csv`: validate the filename and the
header, delete the budget items of the project, insert the rows.
`parsed` is the outcome of `pd.read_csv` on the decoded upload. -/
def upload_budget_csv_body (st : State) (filename : String)
    (parsed : Except String CsvFile) (pid : String) : Except PyErr State :=
  if ¬ (filename.endsWith ".csv") then .error (.http 400 "File must be a CSV")
  else
    match parsed with
    | .error e => .error (.exc e)
    | .ok df =>
        if ¬ ("Category" ∈ df.columns ∧ "Planned_Amount" ∈ df.columns) then
          .error (.http 400 "CSV must have Category and Planned_Amount columns")
        else
          match itemsOfRows pid df.rows with
          | .error e => .error e
          | .ok new_items =>
              .ok { st with budget_items :=
                      st.budget_items.filter (fun b => b.project_id != pid) ++ new_items }

/-- `upload_budget_csv` endpoint: on any exception the session is rolled
back (state unchanged) and, because the blanket `except Exception`
catches the `HTTPException`s raised inside the `try` block as well, the
client always receives status 500 on failure. -/
def upload_budget_csv (st : State) (filename : String)
    (parsed : Except String CsvFile) (pid : String) : State × Nat :=
  match upload_budget_csv_body st filename parsed pid with
  | .ok st2 => (st2, 200)
  | .error _ => (st, 500)

/-- `get_available_categories(session, project_id)`: the distinct budget
categories of the project, `["Misc"]` when there are none. -/
def get_available_categories (st : State) (pid : String) : List String :=
  let cats := ((st.budget_items.filter (·.project_id == pid)).map (·.category)).dedup
  if cats = [] then ["Misc"] else cats

/-- The uploaded receipt as the endpoint sees it: whether its content
type is an image, and (when OCR ran) the extracted amount and text.
The OCR itself (`pytesseract` over the image) is external and opaque;
its result is part of the input. -/
structure Receipt where
  isImage : Bool
  extracted_amount : Option ℚ
  text : String
deriving DecidableEq

/-- Python truthiness of an optional string: `None` and `""` are falsy. -/
def truthyStr : Option String → Bool
  | none => false
  | some s => s ≠ ""

/-- The `try` block of `upload_expense`.  `today` models
`datetime.utcnow().date()`; `date` is `none` when the form field is
absent, `some none` when present but not of the form `%Y-%m-%d` (so that
`strptime` raises `ValueError`), `some (some d)` when it parses to `d`.
`smart` abstracts `categorize_expense_smart` (keyword scoring over the
text, a pure function of the text and the category list). -/
def upload_expense_body (st : State) (today : ℤ)
    (smart : String → List String → String) (pid : String) (amount : Option ℚ)
    (category : Option String) (receipt : Option Receipt)
    (description : Option String) (date : Option (Option ℤ)) :
    Except PyErr (State × String × ℚ) :=
  match date with
  | some none => .error (.exc "time data does not match format")
  | _ =>
      let expense_date := match date with
        | some (some d) => d
        | _ => today
      let ocr : Option ℚ × String := match receipt with
        | some r => if r.isImage then (r.extracted_amount, r.text) else (none, "")
        | none => (none, "")
      let final_amount := match ocr.1 with
        | some a => some a
        | none => amount
      match final_amount with
      | none => .error (.http 400 "Valid amount is required.")
      | some amt =>
          if amt ≤ 0 then .error (.http 400 "Valid amount is required.")
          else
            let available_categories := get_available_categories st pid
            let final_category :=
              if truthyStr category then category.getD "" else
                let categorization_text :=
                  if ocr.2 ≠ "" then some ocr.2 else description
                if truthyStr categorization_text then
                  smart (categorization_text.getD "") available_categories
                else "Misc"
            let expense : Expense :=
              { category := final_category, amount := amt,
                date := expense_date, project_id := pid }
            .ok ({ st with expenses := st.expenses ++ [expense] }, final_category, amt)

/-- `upload_expense` endpoint: `except HTTPException` re-raises with its
status preserved, every other exception becomes a 500; both paths roll
the session back first, and nothing was added before the raise. -/
def upload_expense (st : State) (today : ℤ)
    (smart : String → List String → String) (pid : String) (amount : Option ℚ)
    (category : Option String) (receipt : Option Receipt)
    (description : Option String) (date : Option (Option ℤ)) : State × Nat :=
  match upload_expense_body st today smart pid amount category receipt description date with
  | .ok (st2, _, _) => (st2, 200)
  | .error (.http s _) => (st, s)
  | .error (.exc _) => (st, 500)

/-! Concrete inputs used by counterexamples and witnesses. -/

/-- Three categories for project `p`: `A` ends 0.019 over budget, `B` ends
0.04 under (flexibility 0.15, transferable 0.006), `C` ends 0.011 under
(flexibility 0.5, transferable 0.0055). -/
def stC1 : State :=
  { budget_items :=
      [ { category := "A", planned_amount := 1, project_id := "p", priority := 1,
          flexible := (15:ℚ)/100 },
        { category := "B", planned_amount := 1, project_id := "p", priority := 1,
          flexible := (15:ℚ)/100 },
        { category := "C", planned_amount := 1, project_id := "p", priority := 1,
          flexible := (5:ℚ)/10 } ],
    expenses :=
      [ { category := "A", amount := (1:ℚ)/10, date := 1, project_id := "p" },
        { category := "A", amount := (1:ℚ)/10, date := 2, project_id := "p" },
        { category := "A", amount := (99:ℚ)/1000, date := 3, project_id := "p" },
        { category := "B", amount := (1:ℚ)/10, date := 1, project_id := "p" },
        { category := "B", amount := (1:ℚ)/10, date := 2, project_id := "p" },
        { category := "B", amount := (1:ℚ)/10, date := 3, project_id := "p" },
        { category := "C", amount := (1:ℚ)/10, date := 1, project_id := "p" },
        { category := "C", amount := (1:ℚ)/10, date := 2, project_id := "p" },
        { category := "C", amount := (89:ℚ)/1000, date := 3, project_id := "p" } ] }

/-- Prophet outcomes for `stC1`, chosen so that the rounded predicted
totals are exact two-decimal values. -/
def prophC1 : String → ProphetOutcome := fun c =>
  if c = "A" then .success [⟨(72:ℚ)/100, 0, 0⟩]
  else if c = "B" then .success [⟨(66:ℚ)/100, 0, 0⟩]
  else .success [⟨(7:ℚ)/10, 0, 0⟩]

/-- Two deficit categories (`D1`, `D2`, each 200 over budget) and one
surplus category `S` (100 under budget, flexibility 0.5, transferable
50) for project `q`. -/
def stC10 : State :=
  { budget_items :=
      [ { category := "D1", planned_amount := 100, project_id := "q", priority := 1,
          flexible := (15:ℚ)/100 },
        { category := "D2", planned_amount := 100, project_id := "q", priority := 1,
          flexible := (15:ℚ)/100 },
        { category := "S", planned_amount := 400, project_id := "q", priority := 1,
          flexible := (5:ℚ)/10 } ],
    expenses :=
      [ { category := "D1", amount := 10, date := 1, project_id := "q" },
        { category := "D1", amount := 10, date := 2, project_id := "q" },
        { category := "D1", amount := 10, date := 3, project_id := "q" },
        { category := "D2", amount := 10, date := 1, project_id := "q" },
        { category := "D2", amount := 10, date := 2, project_id := "q" },
        { category := "D2", amount := 10, date := 3, project_id := "q" },
        { category := "S", amount := 10, date := 1, project_id := "q" },
        { category := "S", amount := 10, date := 2, project_id := "q" },
        { category := "S", amount := 10, date := 3, project_id := "q" } ] }

/-- Prophet outcome for `stC10`: every category is predicted to add 270. -/
def prophC10 : String → ProphetOutcome := fun _ => .success [⟨270, 0, 0⟩]

/-- One category at exactly 85% utilization: planned 100, spent 85. -/
def stHU : State :=
  { budget_items :=
      [ { category := "Food", planned_amount := 100, project_id := "p", priority := 1,
          flexible := (15:ℚ)/100 } ],
    expenses := [ { category := "Food", amount := 85, date := 1, project_id := "p" } ] }

/-- One category at 90% utilization: planned 100, spent 90. -/
def stHU90 : State :=
  { budget_items :=
      [ { category := "Food", planned_amount := 100, project_id := "p", priority := 1,
          flexible := (15:ℚ)/100 } ],
    expenses := [ { category := "Food", amount := 90, date := 1, project_id := "p" } ] }

/-- One category at 85.1% utilization: planned 1000, spent 851. -/
def stHU851 : State :=
  { budget_items :=
      [ { category := "Food", planned_amount := 1000, project_id := "p", priority := 1,
          flexible := (15:ℚ)/100 } ],
    expenses := [ { category := "Food", amount := 851, date := 1, project_id := "p" } ] }

/-- A small persisted state used to observe that failed uploads leave the
store unchanged. -/
def st8 : State :=
  { budget_items :=
      [ { category := "Food", planned_amount := 500, project_id := "p", priority := 1,
          flexible := (15:ℚ)/100 } ],
    expenses := [ { category := "Food", amount := 5, date := 1, project_id := "p" } ] }

/-- A state holding budget items of two projects, used to watch a
re-upload for project `p` leave project `r` and all expenses alone. -/
def st9 : State :=
  { budget_items :=
      [ { category := "Food", planned_amount := 500, project_id := "p", priority := 1,
          flexible := (15:ℚ)/100 },
        { category := "Crew", planned_amount := 900, project_id := "r", priority := 2,
          flexible := (1:ℚ)/10 } ],
    expenses := [ { category := "Food", amount := 5, date := 1, project_id := "p" } ] }

/-- The CSV re-uploaded for project `p` in the `st9` scenario. -/
def csv9 : CsvFile :=
  { columns := ["Category", "Planned_Amount"],
    rows := [ { category := "Props", planned_amount := some 300, priority := none,
                flexible := none } ] }

/-- Three expenses of amount 1 on consecutive days. -/
def expC5 : List Expense :=
  [ { category := "A", amount := 1, date := 1, project_id := "p" },
    { category := "A", amount := 1, date := 2, project_id := "p" },
    { category := "A", amount := 1, date := 3, project_id := "p" } ]

/-- Two identical forecast rows (zero variance). -/
def futC5 : List ForecastRow := [⟨10, 0, 0⟩, ⟨10, 0, 0⟩]

/-- The state after re-uploading `csv9` for project `p` over `st9`. -/
def st9res : State :=
  { budget_items :=
      [ { category := "Crew", planned_amount := 900, project_id := "r", priority := 2,
          flexible := (1:ℚ)/10 },
        { category := "Props", planned_amount := 300, project_id := "p", priority := 1,
          flexible := (15:ℚ)/100 } ],
    expenses := [ { category := "Food", amount := 5, date := 1, project_id := "p" } ] }

/-! Helper lemmas. -/

theorem roundHalfEven_le (q : ℚ) : (roundHalfEven q : ℚ) ≤ q + 1/2 := by
  have h1 : ((⌊q⌋ : ℤ) : ℚ) ≤ q := Int.floor_le q
  unfold roundHalfEven
  split <;> rename_i hc1
  · linarith
  · have h1a : (1:ℚ)/2 ≤ q - ⌊q⌋ := not_lt.1 hc1
    split <;> rename_i hc2
    · push_cast; linarith
    · split <;> push_cast <;> linarith

theorem round2_le (q : ℚ) : round2 q ≤ q + 1/200 := by
  have h := roundHalfEven_le (q * 100)
  unfold round2
  rw [div_le_iff₀ (by norm_num : (0:ℚ) < 100)]
  linarith

theorem sampleVariance_nonneg (l : List ℚ) : 0 ≤ sampleVariance l := by
  unfold sampleVariance
  rcases l with _ | ⟨x, xs⟩
  · simp
  · apply div_nonneg
    · apply List.sum_nonneg
      intro a ha
      simp only [List.mem_map] at ha
      obtain ⟨b, _, rfl⟩ := ha
      positivity
    · have h1 : (1:ℚ) ≤ ((x :: xs).length : ℚ) := by
        have : 1 ≤ (x :: xs).length := by simp
        exact_mod_cast this
      linarith

theorem sqrtLt_iff_sqrt_lt (v c : ℚ) :
    sqrtLt v c ↔ Real.sqrt (v : ℝ) < (c : ℝ) := by
  unfold sqrtLt
  constructor
  · rintro ⟨hc, hlt⟩
    have hc2 : (0:ℝ) < (c:ℝ) := by exact_mod_cast hc
    rw [Real.sqrt_lt' hc2]
    exact_mod_cast hlt
  · intro h
    have hc2 : (0:ℝ) < (c:ℝ) := lt_of_le_of_lt (Real.sqrt_nonneg _) h
    refine ⟨by exact_mod_cast hc2, ?_⟩
    have h2 := (Real.sqrt_lt' hc2).1 h
    exact_mod_cast h2

theorem insertLe_perm {α : Type} (le : α → α → Bool) (x : α) (l : List α) :
    (insertLe le x l).Perm (x :: l) := by
  induction l with
  | nil => simp [insertLe]
  | cons y ys ih =>
      rw [insertLe]
      split
      · exact (ih.cons y).trans (List.Perm.swap x y ys)
      · exact List.Perm.refl _

theorem foldl_insertLe_perm {α : Type} (le : α → α → Bool) :
    ∀ (l acc : List α), (l.foldl (fun acc x => insertLe le x acc) acc).Perm (acc ++ l)
  | [], acc => by simp
  | x :: xs, acc => by
      simp only [List.foldl_cons]
      refine (foldl_insertLe_perm le xs (insertLe le x acc)).trans ?_
      refine ((insertLe_perm le x acc).append_right xs).trans ?_
      exact List.perm_middle.symm

theorem stableSortBy_perm {α : Type} (le : α → α → Bool) (l : List α) :
    (stableSortBy le l).Perm l := by
  have h := foldl_insertLe_perm le l []
  simpa [stableSortBy] using h

theorem mem_stableSortBy {α : Type} {le : α → α → Bool} {l : List α} {a : α} :
    a ∈ stableSortBy le l ↔ a ∈ l :=
  (stableSortBy_perm le l).mem_iff

/-! Claims C3 and C4: the guard and the failure branch of the forecast. -/

/-- Claim C3: for every expense history with fewer than 3 recorded
expenses for the category, the forecast returns `predicted_total = none`,
`trend = "insufficient_data"` and `confidence = "low"`. -/
theorem forecast_insufficient_data (expenses : List Expense)
    (prophet : ProphetOutcome) (h : expenses.length < 3) :
    (predict_category_spending expenses prophet).predicted_total = none ∧
    (predict_category_spending expenses prophet).trend = "insufficient_data" ∧
    (predict_category_spending expenses prophet).confidence = "low" := by
  unfold predict_category_spending
  rw [if_pos h]
  exact ⟨rfl, rfl, rfl⟩

theorem forecast_insufficient_data_witness :
    ([⟨"Food", 5, 1, "p"⟩, ⟨"Food", 7, 2, "p"⟩] : List Expense).length < 3 ∧
    ((predict_category_spending [⟨"Food", 5, 1, "p"⟩, ⟨"Food", 7, 2, "p"⟩]
        (.failure "x")).predicted_total = none ∧
      (predict_category_spending [⟨"Food", 5, 1, "p"⟩, ⟨"Food", 7, 2, "p"⟩]
        (.failure "x")).trend = "insufficient_data" ∧
      (predict_category_spending [⟨"Food", 5, 1, "p"⟩, ⟨"Food", 7, 2, "p"⟩]
        (.failure "x")).confidence = "low") :=
  ⟨by decide,
   forecast_insufficient_data [⟨"Food", 5, 1, "p"⟩, ⟨"Food", 7, 2, "p"⟩]
     (.failure "x") (by decide)⟩

/-- Claim C4: the forecast is a total function of its inputs (so it never
raises to its caller), and whenever the underlying model fails to fit or
predict it returns `trend = "error"`, `confidence = "low"` and
`predicted_total = none`. -/
theorem forecast_error_branch (expenses : List Expense) (msg : String)
    (h : 3 ≤ expenses.length) :
    (predict_category_spending expenses (.failure msg)).predicted_total = none ∧
    (predict_category_spending expenses (.failure msg)).trend = "error" ∧
    (predict_category_spending expenses (.failure msg)).confidence = "low" := by
  unfold predict_category_spending
  rw [if_neg (not_lt.2 h)]
  exact ⟨rfl, rfl, rfl⟩

theorem forecast_error_branch_witness :
    3 ≤ ([⟨"A", 1, 1, "p"⟩, ⟨"A", 1, 2, "p"⟩, ⟨"A", 1, 3, "p"⟩] : List Expense).length ∧
    ((predict_category_spending [⟨"A", 1, 1, "p"⟩, ⟨"A", 1, 2, "p"⟩, ⟨"A", 1, 3, "p"⟩]
        (.failure "fit failed")).predicted_total = none ∧
      (predict_category_spending [⟨"A", 1, 1, "p"⟩, ⟨"A", 1, 2, "p"⟩, ⟨"A", 1, 3, "p"⟩]
        (.failure "fit failed")).trend = "error" ∧
      (predict_category_spending [⟨"A", 1, 1, "p"⟩, ⟨"A", 1, 2, "p"⟩, ⟨"A", 1, 3, "p"⟩]
        (.failure "fit failed")).confidence = "low") :=
  ⟨by decide,
   forecast_error_branch [⟨"A", 1, 1, "p"⟩, ⟨"A", 1, 2, "p"⟩, ⟨"A", 1, 3, "p"⟩]
     "fit failed" (by decide)⟩

/-! Lemmas about the inner reallocation loop. -/

theorem drawFrom_to_category (c : String) :
    ∀ (ss : List CategoryAnalysis) (n : ℚ), ∀ s ∈ drawFrom n ss c, s.to_category = c
  | [], n => by intro s hs; simp [drawFrom] at hs
  | a :: rest, n => by
      intro s hs
      rw [drawFrom] at hs
      dsimp only at hs
      split at hs
      · exact drawFrom_to_category c rest n s hs
      · split at hs
        · rw [List.mem_singleton] at hs
          subst hs; rfl
        · rcases List.mem_cons.1 hs with rfl | hs2
          · rfl
          · exact drawFrom_to_category c rest _ s hs2

theorem drawFrom_sum_le (c : String) :
    ∀ (ss : List CategoryAnalysis) (n : ℚ), 0 < n →
      ((drawFrom n ss c).map (fun s => s.amount)).sum ≤
        n + ((drawFrom n ss c).length : ℚ) * (1/200)
  | [], n => by intro hn; simp [drawFrom]; linarith
  | a :: rest, n => by
      intro hn
      rw [drawFrom]
      dsimp only
      split
      · exact drawFrom_sum_le c rest n hn
      · have htle : min (|a.overspend_amount| * a.flexible) (n * (1/2)) ≤ n * (1/2) :=
          min_le_right _ _
        have hr2 := round2_le (min (|a.overspend_amount| * a.flexible) (n * (1/2)))
        split <;> rename_i hbr
        · simp only [List.map_cons, List.map_nil, List.sum_cons, List.sum_nil,
            List.length_cons, List.length_nil]
          push_cast
          linarith
        · have ih := drawFrom_sum_le c rest
            (n - min (|a.overspend_amount| * a.flexible) (n * (1/2)))
            (by linarith [not_le.1 hbr])
          simp only [List.map_cons, List.sum_cons, List.length_cons]
          push_cast
          linarith

theorem filter_flatMap_single (f : CategoryAnalysis → List Suggestion)
    (hf : ∀ d2 : CategoryAnalysis, ∀ s ∈ f d2, s.to_category = d2.category) :
    ∀ (l : List CategoryAnalysis) (d : CategoryAnalysis), d ∈ l →
      ((l.map (fun c => c.category)).Nodup) →
      (l.flatMap f).filter (fun s => s.to_category == d.category) = f d
  | [], d => by intro hd _; exact absurd hd (List.not_mem_nil d)
  | x :: xs, d => by
      intro hd hnd
      simp only [List.map_cons, List.nodup_cons] at hnd
      obtain ⟨hnd1, hnd2⟩ := hnd
      simp only [List.flatMap_cons, List.filter_append]
      rcases List.mem_cons.1 hd with rfl | hd2
      · have h1 : (f d).filter (fun s => s.to_category == d.category) = f d := by
          rw [List.filter_eq_self]
          intro s hs
          have hc := hf d s hs
          simp [hc]
        have h2 : (xs.flatMap f).filter (fun s => s.to_category == d.category) = [] := by
          rw [List.filter_eq_nil_iff]
          intro s hs
          obtain ⟨d2, hd2m, hsd2⟩ := List.mem_flatMap.1 hs
          have hcat := hf d2 s hsd2
          have hne : d2.category ≠ d.category := fun he =>
            hnd1 (he ▸ List.mem_map_of_mem _ hd2m)
          simp [hcat, hne]
        rw [h1, h2, List.append_nil]
      · have hxne : x.category ≠ d.category := fun he =>
          hnd1 (by rw [he]; exact List.mem_map_of_mem _ hd2)
        have h1 : (f x).filter (fun s => s.to_category == d.category) = [] := by
          rw [List.filter_eq_nil_iff]
          intro s hs
          simp [hf x s hs, hxne]
        rw [h1, List.nil_append]
        exact filter_flatMap_single f hf xs d hd2 hnd2

/-! Claim C1: total suggested inflow into one deficit category. -/

/-- Claim C1 (amended): the suggested transfer amounts are rounded to two
decimals while the remaining need is decremented by the unrounded
amounts, so the suggested inflow into a deficit category can exceed its
overspend amount by the accumulated rounding; it never exceeds the
overspend amount by more than 0.005 per suggestion directed into it.
Stated for inputs whose analysis list has pairwise distinct categories,
so that the suggestions into the deficit are identified by its name. -/
theorem reallocation_inflow_bounded (st : State) (pid : String)
    (prophets : String → ProphetOutcome) (d : CategoryAnalysis)
    (hd : d ∈ deficitsOf st pid prophets)
    (hnd : ((analysisOf st pid prophets).map (fun c => c.category)).Nodup) :
    (((calculate_reallocation_suggestions st pid prophets).filter
        (fun s => s.to_category == d.category)).map (fun s => s.amount)).sum ≤
      d.overspend_amount +
        (((calculate_reallocation_suggestions st pid prophets).filter
            (fun s => s.to_category == d.category)).length : ℚ) * (1/200) := by
  have hpos : 0 < d.overspend_amount := by
    have h1 : d ∈ (analysisOf st pid prophets).filter
        (fun c => decide (0 < c.overspend_amount)) := mem_stableSortBy.1 hd
    have h2 := (List.mem_filter.1 h1).2
    simpa using h2
  unfold calculate_reallocation_suggestions
  split
  · simp only [List.filter_nil, List.map_nil, List.sum_nil, List.length_nil]
    push_cast
    linarith
  · have hnd2 : ((deficitsOf st pid prophets).map (fun c => c.category)).Nodup := by
      have hperm : (deficitsOf st pid prophets).Perm
          ((analysisOf st pid prophets).filter
            (fun c => decide (0 < c.overspend_amount))) := stableSortBy_perm _ _
      have hsub : (((analysisOf st pid prophets).filter
            (fun c => decide (0 < c.overspend_amount))).map
              (fun c => c.category)).Sublist
          ((analysisOf st pid prophets).map (fun c => c.category)) :=
        (List.filter_sublist _).map _
      exact ((hperm.map _).nodup_iff).2 (hsub.nodup hnd)
    rw [filter_flatMap_single _
      (fun d2 s hs => drawFrom_to_category d2.category _ _ s hs)
      (deficitsOf st pid prophets) d hd hnd2]
    exact drawFrom_sum_le d.category _ d.overspend_amount hpos

/-- Claim C1 is false as stated: at `stC1` the only deficit category `A`
has overspend amount 0.019, but the two suggested (rounded) transfers
into `A` are 0.01 each, so the suggested inflow 0.02 exceeds the
overspend amount. -/
theorem reallocation_inflow_counterexample :
    (deficitsOf stC1 "p" prophC1).map (fun d => (d.category, d.overspend_amount)) =
      [("A", (19:ℚ)/1000)] ∧
    ¬ ((((calculate_reallocation_suggestions stC1 "p" prophC1).filter
          (fun s => s.to_category == "A")).map (fun s => s.amount)).sum ≤
        (19:ℚ)/1000) := by
  constructor
  · with_unfolding_all rfl
  · have h : (((calculate_reallocation_suggestions stC1 "p" prophC1).filter
        (fun s => s.to_category == "A")).map (fun s => s.amount)).sum = 1/50 := by
      with_unfolding_all rfl
    rw [h]
    norm_num

set_option maxRecDepth 100000 in
/-- Witness for the amended claim C1 at the `stC1` input. -/
theorem reallocation_inflow_bounded_witness :
    (⟨"A", 1, (299:ℚ)/1000, (1019:ℚ)/1000, (19:ℚ)/1000, (19:ℚ)/10, 1, (15:ℚ)/100⟩ :
        CategoryAnalysis) ∈ deficitsOf stC1 "p" prophC1 ∧
    ((analysisOf stC1 "p" prophC1).map (fun c => c.category)).Nodup ∧
    (((calculate_reallocation_suggestions stC1 "p" prophC1).filter
        (fun s => s.to_category == "A")).map (fun s => s.amount)).sum ≤
      (19:ℚ)/1000 +
        (((calculate_reallocation_suggestions stC1 "p" prophC1).filter
            (fun s => s.to_category == "A")).length : ℚ) * (1/200) :=
  ⟨by with_unfolding_all decide, by with_unfolding_all decide,
   reallocation_inflow_bounded stC1 "p" prophC1
     ⟨"A", 1, (299:ℚ)/1000, (1019:ℚ)/1000, (19:ℚ)/1000, (19:ℚ)/10, 1, (15:ℚ)/100⟩
     (by with_unfolding_all decide) (by with_unfolding_all decide)⟩

/-! Claim C2: the reallocation loop matches the spec wording. -/

theorem drawFrom_eq_spec (c : String) :
    ∀ (ss : List CategoryAnalysis) (n : ℚ),
      drawFrom n ss c =
        (spec_draw n ss c).map (fun s => { s with amount := round2 s.amount })
  | [], n => by simp [drawFrom, spec_draw]
  | a :: rest, n => by
      rw [drawFrom, spec_draw]
      dsimp only
      by_cases h1 : |a.overspend_amount| * a.flexible < n * (5/100)
      · rw [if_pos h1, if_pos h1]
        exact drawFrom_eq_spec c rest n
      · rw [if_neg h1, if_neg h1]
        by_cases h2 : n - min (|a.overspend_amount| * a.flexible) (n * (1/2)) ≤ 0
        · rw [if_pos h2, if_pos h2]
          rfl
        · rw [if_neg h2, if_neg h2]
          simp only [List.map_cons]
          rw [drawFrom_eq_spec c rest _]

/-- Claim C2: the heuristic processes the deficit categories sorted by
overspend percentage descending and draws from the sorted surplus list in
order, skipping a source whose transferable amount
(`|overspend| * flexibility`) is under 5% of the remaining need, setting
each transfer to `min(transferable, remaining need * 0.5)`, decrementing
the remaining need by the (unrounded) transfer, and stopping when the
need is exhausted or the sources run out: the code function is the
spec-worded reallocation with every suggested amount rounded to two
decimals. -/
theorem reallocation_matches_spec (st : State) (pid : String)
    (prophets : String → ProphetOutcome)
    (h2 : 2 ≤ (st.budget_items.filter (fun b => b.project_id == pid)).length) :
    calculate_reallocation_suggestions st pid prophets =
      (suggest_reallocations_spec (analysisOf st pid prophets)).map
        (fun s => { s with amount := round2 s.amount }) := by
  unfold calculate_reallocation_suggestions suggest_reallocations_spec deficitsOf
    surplusesOf
  rw [if_neg (not_lt.2 h2)]
  dsimp only
  rw [List.map_flatMap]
  congr 1
  funext d
  exact drawFrom_eq_spec d.category _ d.overspend_amount

set_option maxRecDepth 100000 in
/-- Witness for claim C2 at the `stC10` input. -/
theorem reallocation_matches_spec_witness :
    2 ≤ (stC10.budget_items.filter (fun b => b.project_id == "q")).length ∧
    calculate_reallocation_suggestions stC10 "q" prophC10 =
      (suggest_reallocations_spec (analysisOf stC10 "q" prophC10)).map
        (fun s => { s with amount := round2 s.amount }) :=
  ⟨by with_unfolding_all decide,
   reallocation_matches_spec stC10 "q" prophC10 (by with_unfolding_all decide)⟩

/-! Claim C10: surplus funds are never decremented across deficits. -/

/-- Claim C10: the transferable amount of a surplus category is recomputed
fresh (`|overspend| * flexibility`) for each deficit category and never
decremented after a suggestion, so at `stC10` the total suggested outflow
from the single surplus category `S` is 100, twice its transferable
surplus of 50. -/
theorem reallocation_outflow_exceeds_surplus :
    (surplusesOf stC10 "q" prophC10).map
        (fun s => (s.category, |s.overspend_amount| * s.flexible)) =
      [("S", (50:ℚ))] ∧
    (((calculate_reallocation_suggestions stC10 "q" prophC10).filter
        (fun s => s.from_category == "S")).map (fun s => s.amount)).sum = 100 ∧
    (50:ℚ) < 100 :=
  ⟨by with_unfolding_all rfl, by with_unfolding_all rfl, by norm_num⟩

/-! Claim C5: classification of a successful forecast. -/

/-- Claim C5: when the forecast succeeds, the trend is classified from the
percentage delta between the predicted future daily mean and the mean of
the 5 most recent historical observations (accelerating above 20,
increasing above 5, decreasing below -5, else stable), and the confidence
from the standard deviation of the predicted daily values: high below 30%
of their mean, medium below 60%, else low. -/
theorem forecast_classification (expenses : List Expense)
    (future : List ForecastRow) (R delta : ℚ) (h3 : 3 ≤ expenses.length)
    (h2 : 2 ≤ future.length)
    (hR : R = mean ((expenses.map (fun e => e.amount)).drop
      ((expenses.map (fun e => e.amount)).length - 5)))
    (hRpos : 0 < R)
    (hdelta : delta = (mean (future.map (fun r => r.yhat)) - R) / R * 100) :
    (predict_category_spending expenses (.success future)).trend =
      (if 20 < delta then "accelerating"
       else if 5 < delta then "increasing"
       else if delta < -5 then "decreasing" else "stable") ∧
    (predict_category_spending expenses (.success future)).confidence =
      (if Real.sqrt ((sampleVariance (future.map (fun r => r.yhat)) : ℚ) : ℝ) <
          ((mean (future.map (fun r => r.yhat)) * (3/10) : ℚ) : ℝ) then "high"
       else if Real.sqrt ((sampleVariance (future.map (fun r => r.yhat)) : ℚ) : ℝ) <
          ((mean (future.map (fun r => r.yhat)) * (6/10) : ℚ) : ℝ) then "medium"
       else "low") := by
  subst hdelta
  subst hR
  unfold predict_category_spending
  rw [if_neg (not_lt.2 h3)]
  dsimp only
  constructor
  · rw [if_pos hRpos]
    rfl
  · unfold confidenceOf
    dsimp only
    rw [if_neg (by omega : ¬ (future.length ≤ 1))]
    rw [if_congr (sqrtLt_iff_sqrt_lt _ _) rfl
      (if_congr (sqrtLt_iff_sqrt_lt _ _) rfl rfl)]

set_option maxRecDepth 100000 in
/-- Witness for claim C5 at three constant expenses and a zero-variance
forecast. -/
theorem forecast_classification_witness :
    3 ≤ expC5.length ∧ 2 ≤ futC5.length ∧
    (1:ℚ) = mean ((expC5.map (fun e => e.amount)).drop
      ((expC5.map (fun e => e.amount)).length - 5)) ∧
    (0:ℚ) < 1 ∧
    (900:ℚ) = (mean (futC5.map (fun r => r.yhat)) - 1) / 1 * 100 ∧
    ((predict_category_spending expC5 (.success futC5)).trend =
        (if (20:ℚ) < 900 then "accelerating"
         else if (5:ℚ) < 900 then "increasing"
         else if (900:ℚ) < -5 then "decreasing" else "stable") ∧
      (predict_category_spending expC5 (.success futC5)).confidence =
        (if Real.sqrt ((sampleVariance (futC5.map (fun r => r.yhat)) : ℚ) : ℝ) <
            ((mean (futC5.map (fun r => r.yhat)) * (3/10) : ℚ) : ℝ) then "high"
         else if Real.sqrt ((sampleVariance (futC5.map (fun r => r.yhat)) : ℚ) : ℝ) <
            ((mean (futC5.map (fun r => r.yhat)) * (6/10) : ℚ) : ℝ) then "medium"
         else "low")) :=
  ⟨by with_unfolding_all decide, by with_unfolding_all decide,
   by with_unfolding_all rfl, by norm_num, by with_unfolding_all rfl,
   forecast_classification expC5 futC5 1 900 (by with_unfolding_all decide)
     (by with_unfolding_all decide) (by with_unfolding_all rfl) (by norm_num)
     (by with_unfolding_all rfl)⟩

/-! Claims C6 and C7: the high-utilization alert boundary. -/

theorem mem_high_utilization (st : State) (pid cat : String) (amt : ℚ)
    (prophet : ProphetOutcome) (b : BudgetItem)
    (hb : firstBudgetItem st pid cat = some b) (hpos : 0 < b.planned_amount)
    (hle : totalSpent st pid cat ≤ b.planned_amount)
    (hgt : 85 * b.planned_amount < totalSpent st pid cat * 100) :
    ∃ a ∈ check_budget_alerts st pid cat amt prophet,
      a.kind = "high_utilization" ∧ a.severity = "warning" := by
  unfold check_budget_alerts
  rw [hb]
  dsimp only
  have hno : ¬ b.planned_amount < totalSpent st pid cat := not_lt.2 hle
  have hut : 85 < (if 0 < b.planned_amount
      then totalSpent st pid cat / b.planned_amount * 100 else 0) := by
    rw [if_pos hpos, div_mul_eq_mul_div, lt_div_iff₀ hpos]
    linarith
  rw [if_neg hno, if_pos hut]
  exact ⟨_, List.mem_append_left _ (List.mem_singleton_self _), rfl, rfl⟩

theorem no_high_utilization_of_le (st : State) (pid cat : String) (amt : ℚ)
    (prophet : ProphetOutcome) (b : BudgetItem)
    (hb : firstBudgetItem st pid cat = some b) (hpos : 0 < b.planned_amount)
    (hle85 : totalSpent st pid cat * 100 ≤ 85 * b.planned_amount) :
    ∀ a ∈ check_budget_alerts st pid cat amt prophet,
      a.kind ≠ "high_utilization" := by
  intro a ha
  unfold check_budget_alerts at ha
  rw [hb] at ha
  dsimp only at ha
  rw [if_pos hpos] at ha
  rw [List.mem_append] at ha
  rcases ha with hbase | hpred
  · split at hbase <;> rename_i h1
    · rw [List.mem_singleton] at hbase
      subst hbase
      simp
    · split at hbase <;> rename_i h2
      · exfalso
        rw [div_mul_eq_mul_div, lt_div_iff₀ hpos] at h2
        linarith
      · exact absurd hbase (List.not_mem_nil a)
  · rcases hopt : (predict_category_spending (expensesSorted st pid cat)
        prophet).predicted_total with _ | p
    · rw [hopt] at hpred
      exact absurd hpred (List.not_mem_nil a)
    · rw [hopt] at hpred
      dsimp only at hpred
      split at hpred
      · rw [List.mem_singleton] at hpred
        subst hpred
        simp
      · exact absurd hpred (List.not_mem_nil a)

/-- Claim C6 (amended): the alert fires only when actual spend is
strictly above 85% of the planned amount (and does not exceed it); then
`check_budget_alerts` includes a `high_utilization` alert with severity
`warning`. -/
theorem high_utilization_above_85 (st : State) (pid cat : String) (amt : ℚ)
    (prophet : ProphetOutcome) (b : BudgetItem)
    (hb : firstBudgetItem st pid cat = some b) (hpos : 0 < b.planned_amount)
    (hle : totalSpent st pid cat ≤ b.planned_amount)
    (hgt : 85 * b.planned_amount < totalSpent st pid cat * 100) :
    ∃ a ∈ check_budget_alerts st pid cat amt prophet,
      a.kind = "high_utilization" ∧ a.severity = "warning" :=
  mem_high_utilization st pid cat amt prophet b hb hpos hle hgt

/-- Claim C6 is false as stated: at `stHU` the category `Food` is at
exactly 85% of its planned 100 (so at least 85% and not exceeding), yet
`check_budget_alerts` returns no alert at all. -/
theorem high_utilization_at_85_counterexample :
    firstBudgetItem stHU "p" "Food" =
      some ⟨"Food", 100, "p", 1, (15:ℚ)/100⟩ ∧
    (85:ℚ)/100 * 100 ≤ totalSpent stHU "p" "Food" ∧
    totalSpent stHU "p" "Food" ≤ 100 ∧
    check_budget_alerts stHU "p" "Food" 85 (.failure "e") = [] := by
  have hs : totalSpent stHU "p" "Food" = 85 := by with_unfolding_all rfl
  refine ⟨by with_unfolding_all rfl, ?_, ?_, by with_unfolding_all rfl⟩
  · rw [hs]; norm_num
  · rw [hs]; norm_num

/-- Witness for the amended claim C6 at 90% utilization. -/
theorem high_utilization_above_85_witness :
    firstBudgetItem stHU90 "p" "Food" =
      some ⟨"Food", 100, "p", 1, (15:ℚ)/100⟩ ∧
    ∃ a ∈ check_budget_alerts stHU90 "p" "Food" 90 (.failure "e"),
      a.kind = "high_utilization" ∧ a.severity = "warning" :=
  ⟨by with_unfolding_all rfl,
   high_utilization_above_85 stHU90 "p" "Food" 90 (.failure "e")
     ⟨"Food", 100, "p", 1, (15:ℚ)/100⟩ (by with_unfolding_all rfl)
     (by with_unfolding_all decide) (by with_unfolding_all decide)
     (by with_unfolding_all decide)⟩

/-- Claim C7: the `high_utilization` boundary is strict: at exactly 85%
utilization no such alert fires, and at 85.1% utilization it fires with
severity `warning`. -/
theorem utilization_boundary (st : State) (pid cat : String) (amt : ℚ)
    (prophet : ProphetOutcome) (b : BudgetItem)
    (hb : firstBudgetItem st pid cat = some b) (hpos : 0 < b.planned_amount) :
    (totalSpent st pid cat * 100 = 85 * b.planned_amount →
      ∀ a ∈ check_budget_alerts st pid cat amt prophet,
        a.kind ≠ "high_utilization") ∧
    (totalSpent st pid cat * 1000 = 851 * b.planned_amount →
      ∃ a ∈ check_budget_alerts st pid cat amt prophet,
        a.kind = "high_utilization" ∧ a.severity = "warning") := by
  constructor
  · intro h85
    exact no_high_utilization_of_le st pid cat amt prophet b hb hpos (le_of_eq h85)
  · intro h851
    apply mem_high_utilization st pid cat amt prophet b hb hpos
    · linarith
    · linarith

/-- Witness for claim C7 at exactly 85% (`stHU`) and at 85.1%
(`stHU851`). -/
theorem utilization_boundary_witness :
    (∀ a ∈ check_budget_alerts stHU "p" "Food" 85 (.failure "e"),
        a.kind ≠ "high_utilization") ∧
    (∃ a ∈ check_budget_alerts stHU851 "p" "Food" 851 (.failure "e"),
        a.kind = "high_utilization" ∧ a.severity = "warning") := by
  constructor
  · exact (utilization_boundary stHU "p" "Food" 85 (.failure "e")
      ⟨"Food", 100, "p", 1, (15:ℚ)/100⟩ (by with_unfolding_all rfl)
      (by with_unfolding_all decide)).1 (by with_unfolding_all rfl)
  · exact (utilization_boundary stHU851 "p" "Food" 851 (.failure "e")
      ⟨"Food", 1000, "p", 1, (15:ℚ)/100⟩ (by with_unfolding_all rfl)
      (by with_unfolding_all decide)).2 (by with_unfolding_all rfl)

/-! Claim C8: validation errors, status codes and state. -/

/-- Claim C8 is broken by the code: the three classic validation errors
(missing `Planned_Amount` column, non-numeric amount, invalid date
format) all leave the state unchanged, but the client receives status
500 rather than a 4xx error, because `upload_budget_csv` has no
`except HTTPException` clause and its blanket `except Exception` turns
its own 400s into 500s, and the `ValueError` of `strptime` in
`upload_expense` also falls into the blanket handler. -/
theorem upload_validation_gives_500 :
    upload_budget_csv st8 "budget.csv"
        (.ok ⟨["Category"], [⟨"Food", some 500, none, none⟩]⟩) "p" = (st8, 500) ∧
    upload_budget_csv st8 "budget.csv"
        (.ok ⟨["Category", "Planned_Amount"], [⟨"Food", none, none, none⟩]⟩) "p" =
      (st8, 500) ∧
    upload_expense st8 0 (fun _ _ => "Misc") "p" (some 5) (some "Food") none none
        (some none) = (st8, 500) :=
  ⟨by with_unfolding_all rfl, by with_unfolding_all rfl,
   by with_unfolding_all rfl⟩

/-! Claim C9: re-uploading a budget CSV is a scoped overwrite. -/

theorem upload_budget_csv_body_ok (st : State) (fn pid : String) (csv : CsvFile)
    (st2 : State) (h : upload_budget_csv_body st fn (.ok csv) pid = .ok st2) :
    ∃ items, itemsOfRows pid csv.rows = .ok items ∧
      st2 = { st with budget_items :=
        st.budget_items.filter (fun b => b.project_id != pid) ++ items } := by
  unfold upload_budget_csv_body at h
  dsimp only at h
  split at h
  · exact Except.noConfusion h
  · split at h
    · exact Except.noConfusion h
    · split at h <;> rename_i heq
      · exact Except.noConfusion h
      · injection h with h2
        exact ⟨_, heq, h2.symm⟩

theorem itemsOfRows_project (pid : String) :
    ∀ (rows : List CsvRecord) (items : List BudgetItem),
      itemsOfRows pid rows = .ok items → ∀ b ∈ items, b.project_id = pid
  | [], items => by
      intro h b hb
      rw [itemsOfRows] at h
      injection h with h2
      subst h2
      exact absurd hb (List.not_mem_nil b)
  | r :: rs, items => by
      intro h b hb
      rw [itemsOfRows] at h
      rcases hpa : r.planned_amount with _ | amt
      · rw [hpa] at h
        exact Except.noConfusion h
      · rw [hpa] at h
        dsimp only at h
        rcases hrs : itemsOfRows pid rs with e | items2
        · rw [hrs] at h
          exact Except.noConfusion h
        · rw [hrs] at h
          dsimp only at h
          injection h with h2
          subst h2
          rcases List.mem_cons.1 hb with rfl | hb2
          · rfl
          · exact itemsOfRows_project pid rs items2 hrs b hb2

/-- Claim C9: a successful budget CSV upload for a project replaces
exactly the budget items of that project (the new items all belong to
it), leaves the budget items of every other project unchanged, and
leaves all expense records unchanged. -/
theorem budget_csv_replaces_only_project (st : State) (fn pid : String)
    (csv : CsvFile) (st2 : State)
    (h : upload_budget_csv st fn (.ok csv) pid = (st2, 200)) :
    st2.expenses = st.expenses ∧
    st2.budget_items.filter (fun b => b.project_id != pid) =
      st.budget_items.filter (fun b => b.project_id != pid) ∧
    ∃ items, itemsOfRows pid csv.rows = .ok items ∧
      st2.budget_items =
        st.budget_items.filter (fun b => b.project_id != pid) ++ items ∧
      ∀ b ∈ items, b.project_id = pid := by
  unfold upload_budget_csv at h
  rcases hbody : upload_budget_csv_body st fn (.ok csv) pid with e | st3
  · rw [hbody] at h
    simp at h
  · rw [hbody] at h
    dsimp only at h
    injection h with h1 h2
    subst h1
    obtain ⟨items, hitems, rfl⟩ := upload_budget_csv_body_ok st fn pid csv st3 hbody
    have hproj := itemsOfRows_project pid csv.rows items hitems
    have hitemsf : items.filter (fun b => b.project_id != pid) = [] := by
      rw [List.filter_eq_nil_iff]
      intro b hb
      simp [hproj b hb]
    refine ⟨rfl, ?_, items, hitems, rfl, hproj⟩
    dsimp only
    rw [List.filter_append, hitemsf, List.append_nil, List.filter_filter]
    simp only [Bool.and_self]

set_option maxRecDepth 100000 in
/-- Witness for claim C9: re-uploading `csv9` for project `p` over `st9`
keeps the `Crew` item of project `r` and every expense, and ends with
exactly the CSV rows as the budget of `p`. -/
theorem budget_csv_replaces_only_project_witness :
    st9res.expenses = st9.expenses ∧
    st9res.budget_items.filter (fun b => b.project_id != "p") =
      st9.budget_items.filter (fun b => b.project_id != "p") ∧
    ∃ items, itemsOfRows "p" csv9.rows = .ok items ∧
      st9res.budget_items =
        st9.budget_items.filter (fun b => b.project_id != "p") ++ items ∧
      ∀ b ∈ items, b.project_id = "p" :=
  budget_csv_replaces_only_project st9 "import.csv" "p" csv9 st9res
    (by with_unfolding_all rfl)

end IPMS
